import Mathlib

/-! # OSDP Transparent Reader Support: the TRS command and reply codec

A shallow embedding of `src/src/osdp_trs.c`, of the byte, padding and flag macros
and the wire constants of `src/src/include/osdp_common.h`, and of the dict
helpers of `src/python/pyosdp_utils.c`, with the properties of each.

Conventions of the embedding.

* A `uint8_t *` is the memory behind the pointer: a function from the byte
  offset to the cell.  `rd` reads a cell as a `uint8_t` (a value below 256),
  `wr` stores a value converted to `uint8_t`, `memcpy` copies a run of cells.
* A C `int` is an `Int`.  Conversions that C defines are explicit:
  `to_size_t` (to the 64-bit unsigned `size_t`, used where an `int` meets a
  `sizeof`) and `to_int` (back to the 32-bit `int`).  A subtraction from an
  `int` parameter (`max_len - len`, `len - pos`) is `int_sub`: the exact
  difference reduced to 32 bits in two's complement, which is what the compiled
  code computes when the difference leaves the range of `int`.  Sums of the
  small offsets `len` and `pos` stay far inside the range and are exact.
* A structure member declared `uint8_t` holds a value below 256.
* The anonymous union of `struct osdp_trs_cmd` (and of `struct osdp_trs_reply`)
  is kept as its arms side by side; every path of the functions below reads or
  writes at most one arm.
* `struct osdp_pd` enters the codec only through `pd->trs` and the scratch
  area `pd->ephemeral_data` (an array, cleared as a whole by the decoder).
  The functions take and return exactly these parts.
-/

namespace OSDP

/-! ## Memory -/

/-- Read of `buf[i]` through a `uint8_t *`. -/
def rd (buf : Nat → Nat) (i : Nat) : Nat := buf i % 256

/-- Store `buf[i] = v` through a `uint8_t *`; the value is converted to `uint8_t`. -/
def wr (buf : Nat → Nat) (i : Nat) (v : Nat) : Nat → Nat :=
  fun j => if j = i then v % 256 else buf j

/-- Store `buf[i] = v` of an `int` value `v`, converted to `uint8_t`. -/
def wr_int (buf : Nat → Nat) (i : Nat) (v : Int) : Nat → Nat :=
  fun j => if j = i then (v % 256).toNat else buf j

/-- C library `memcpy(dst + doff, src + soff, n)` on two distinct objects.  The
function is total; it stands for a call of the program only while the `n` cells
lie in memory the program may touch. -/
def memcpy (dst : Nat → Nat) (doff : Nat) (src : Nat → Nat) (soff : Nat) (n : Nat) :
    Nat → Nat :=
  fun j => if doff ≤ j ∧ j < doff + n then src (soff + (j - doff)) % 256 else dst j

/-- Memory cleared by `memset(p, 0, n)`. -/
def zeroed : Nat → Nat := fun _ => 0

/-- The first `n` bytes behind a pointer, as a list. -/
def bytes (buf : Nat → Nat) (n : Nat) : List Nat := (List.range n).map (rd buf)

/-- A buffer holding the listed bytes, followed by zero cells. -/
def of_list (l : List Nat) : Nat → Nat := fun i => l.getD i 0

/-! ## Integer conversions -/

/-- Conversion of an `int` to `size_t` (64 bits, unsigned). -/
def to_size_t (x : Int) : Int := x % 18446744073709551616

/-- Conversion of a `size_t` to `int` (32 bits, two's complement). -/
def to_int (x : Int) : Int := (x + 2147483648) % 4294967296 - 2147483648

/-- Subtraction `a - b` of two `int` values as the machine performs it: the difference
in 32 bits, two's complement. -/
def int_sub (a b : Int) : Int := to_int (a - b)

/-- The bounds `INT_MIN ≤ x ≤ INT_MAX` of a C `int`. -/
def is_int (x : Int) : Prop := -2147483648 ≤ x ∧ x ≤ 2147483647

instance (x : Int) : Decidable (is_int x) := by unfold is_int; infer_instance

/-! ## `osdp_common.h` -/

/-- `BYTE_0(x)`: `(uint8_t)(((x) >> 0) & 0xFF)`. -/
def BYTE_0 (x : Nat) : Nat := ((x >>> 0) &&& 0xFF) % 256

/-- `BYTE_1(x)`: `(uint8_t)(((x) >> 8) & 0xFF)`. -/
def BYTE_1 (x : Nat) : Nat := ((x >>> 8) &&& 0xFF) % 256

/-- `AES_PAD_LEN(x)`: `((x + 16 - 1) & (~(16 - 1)))`, on `int` in two's complement. -/
def AES_PAD_LEN (x : Int) : Int := Int.land (x + 16 - 1) (Int.lnot (16 - 1))

def CMD_POLL : Nat := 0x60
def CMD_ID : Nat := 0x61
def REPLY_ACK : Nat := 0x40
def REPLY_PDID : Nat := 0x45

def SCS_11 : Nat := 0x11
def SCS_12 : Nat := 0x12
def SCS_13 : Nat := 0x13
def SCS_14 : Nat := 0x14
def SCS_15 : Nat := 0x15
def SCS_16 : Nat := 0x16
def SCS_17 : Nat := 0x17
def SCS_18 : Nat := 0x18

/-- The secure block types that the header defines. -/
def scs_types : List Nat := [SCS_11, SCS_12, SCS_13, SCS_14, SCS_15, SCS_16, SCS_17, SCS_18]

/-- `ISSET_FLAG(p, f)`: `(((p)->flags & (f)) == (f))`; `flags` is the `uint32_t` word
`p->flags`. -/
def ISSET_FLAG (flags f : Nat) : Bool := (flags &&& f) == f

/-- `SET_FLAG(p, f)`: `((p)->flags |= (f))`; the result is `p->flags` after the
assignment, a `uint32_t`. -/
def SET_FLAG (flags f : Nat) : Nat := (flags ||| f) % 4294967296

/-- `CLEAR_FLAG(p, f)`: `((p)->flags &= ~(f))`; `~(f)` is the complement of `f` in 32
bits, and the result is `p->flags` after the assignment. -/
def CLEAR_FLAG (flags f : Nat) : Nat := (flags &&& (0xFFFFFFFF ^^^ f)) % 4294967296

def PD_FLAG_SC_CAPABLE : Nat := 0x00000001
def PD_FLAG_TAMPER : Nat := 0x00000002
def PD_FLAG_POWER : Nat := 0x00000004
def PD_FLAG_R_TAMPER : Nat := 0x00000008
def PD_FLAG_AWAIT_RESP : Nat := 0x00000020
def PD_FLAG_SKIP_SEQ_CHECK : Nat := 0x00000040
def PD_FLAG_SC_USE_SCBKD : Nat := 0x00000080
def PD_FLAG_SC_ACTIVE : Nat := 0x00000100
def PD_FLAG_SC_SCBKD_DONE : Nat := 0x00000200
def PD_FLAG_INSTALL_MODE : Nat := 0x40000000
def PD_FLAG_PD_MODE : Nat := 0x80000000

/-- The eleven PD flags that the header defines. -/
def pd_flags : List Nat :=
  [PD_FLAG_SC_CAPABLE, PD_FLAG_TAMPER, PD_FLAG_POWER, PD_FLAG_R_TAMPER, PD_FLAG_AWAIT_RESP,
    PD_FLAG_SKIP_SEQ_CHECK, PD_FLAG_SC_USE_SCBKD, PD_FLAG_SC_ACTIVE, PD_FLAG_SC_SCBKD_DONE,
    PD_FLAG_INSTALL_MODE, PD_FLAG_PD_MODE]

/-- The bit positions of the eleven PD flags, in the order of `pd_flags`. -/
def pd_flag_bits : List Nat := [0, 1, 2, 3, 5, 6, 7, 8, 9, 30, 31]

/-! ## `osdp_trs.c`: constants and records -/

/-- `MODE_CODE(mode, pcmnd)`: `(uint16_t)(((mode) & 0xff) << 8u | ((pcmnd) & 0xff))`. -/
def MODE_CODE (mode pcmnd : Nat) : Nat :=
  (((mode &&& 0xff) <<< 8) ||| (pcmnd &&& 0xff)) % 65536

def CMD_MODE_GET : Nat := MODE_CODE 0 1
def CMD_MODE_SET : Nat := MODE_CODE 0 2
def CMD_SEND_APDU : Nat := MODE_CODE 1 1
def CMD_TERMINATE : Nat := MODE_CODE 1 2
def CMD_ENTER_PIN : Nat := MODE_CODE 1 3
def CMD_CARD_SCAN : Nat := MODE_CODE 1 4

def REPLY_CURRENT_MODE : Nat := MODE_CODE 0 1
def REPLY_CARD_INFO_REPORT : Nat := MODE_CODE 0 2
def REPLY_CARD_PRSENT : Nat := MODE_CODE 1 1
def REPLY_CARD_DATA : Nat := MODE_CODE 1 2
def REPLY_PIN_ENTRY_COMPLETE : Nat := MODE_CODE 1 3

/-- The enumeration `enum osdp_trs_state_e`. -/
inductive osdp_trs_state_e where
  | OSDP_TRS_STATE_INIT
  deriving DecidableEq

/-- The record `struct osdp_trs`, reached as `pd->trs`. -/
structure osdp_trs where
  state : osdp_trs_state_e
  mode : Nat

/-- The record `struct cmd_mode_set`. -/
structure cmd_mode_set where
  mode : Nat
  config : Nat

/-- The record `struct send_apdu`; `apdu` has 64 cells. -/
structure send_apdu where
  apdu_length : Int
  apdu : Nat → Nat

/-- The record `struct pin_entry`; `teo_prologue` has 3 cells, `apdu` has 64. -/
structure pin_entry where
  timeout : Nat
  timeout2 : Nat
  format_string : Nat
  pin_block_string : Nat
  ping_length_format : Nat
  pin_max_extra_digit_msb : Nat
  pin_max_extra_digit_lsb : Nat
  pin_entry_valid_condition : Nat
  pin_num_messages : Nat
  language_id_msb : Nat
  language_id_lsb : Nat
  msg_index : Nat
  teo_prologue : Nat → Nat
  apdu_length_msb : Nat
  apdu_length_lsb : Nat
  apdu : Nat → Nat

/-- The record `struct osdp_trs_cmd`: `mode_code` and the three arms of its union. -/
structure osdp_trs_cmd where
  mode_code : Nat
  mode_set : cmd_mode_set
  send_apdu : send_apdu
  pin_entry : pin_entry

/-- The value `sizeof(cmd->send_apdu.apdu)` and `sizeof(cmd->pin_entry.apdu)`, a `size_t`. -/
def sizeof_apdu : Int := 64

/-- The scratch area after `memset(pd->ephemeral_data, 0, sizeof(pd->ephemeral_data))`,
seen as a `struct osdp_trs_cmd`. -/
def cmd_zero : osdp_trs_cmd where
  mode_code := 0
  mode_set := ⟨0, 0⟩
  send_apdu := ⟨0, zeroed⟩
  pin_entry := ⟨0, 0, 0, 0, 0, 0, 0, 0, 0, 0, 0, 0, zeroed, 0, 0, zeroed⟩

/-- The test `code == 0 || (mode != 0 && mode != 1) || (mode == 0 && code > 2) ||
(mode == 1 && code > 4)` that opens both command functions. -/
def mode_code_invalid (mode code : Nat) : Prop :=
  code = 0 ∨ (mode ≠ 0 ∧ mode ≠ 1) ∨ (mode = 0 ∧ code > 2) ∨ (mode = 1 ∧ code > 4)

instance (mode code : Nat) : Decidable (mode_code_invalid mode code) := by
  unfold mode_code_invalid; infer_instance

/-! ## `osdp_trs_cmd_build` -/

/-- The function `osdp_trs_cmd_build(pd, buf, max_len)`: `cmd` is the command held in
`pd->ephemeral_data`; the result is the returned `int` and the memory behind `buf`
after the call.  The comments give the value of `len` after each statement. -/
def osdp_trs_cmd_build (cmd : osdp_trs_cmd) (buf : Nat → Nat) (max_len : Int) :
    Int × (Nat → Nat) :=
  let mode := BYTE_1 cmd.mode_code
  let code := BYTE_0 cmd.mode_code
  if mode_code_invalid mode code then (-1, buf)
  else
    let buf := wr buf 0 mode                                  -- len = 1
    let buf := wr buf 1 code                                  -- len = 2
    if cmd.mode_code = CMD_MODE_GET then (2, buf)
    else if cmd.mode_code = CMD_MODE_SET then
      let buf := wr buf 2 cmd.mode_set.mode                   -- len = 3
      let buf := wr buf 3 cmd.mode_set.config                 -- len = 4
      (4, buf)
    else
      let buf := wr buf 2 0                                   -- len = 3, reader
      if cmd.mode_code = CMD_SEND_APDU then
        let buf := wr_int buf 3 cmd.send_apdu.apdu_length     -- len = 4
        let apdu_length := cmd.send_apdu.apdu_length
        -- apdu_length > sizeof(cmd->send_apdu.apdu) || apdu_length > (max_len - len)
        if to_size_t apdu_length > sizeof_apdu ∨ apdu_length > int_sub max_len 4 then
          (-1, buf)
        else
          -- memcpy(buf, cmd->send_apdu.apdu, apdu_length); len += apdu_length
          (4 + apdu_length,
            memcpy buf 0 cmd.send_apdu.apdu 0 (to_size_t apdu_length).toNat)
      else if cmd.mode_code = CMD_ENTER_PIN then
        let p := cmd.pin_entry
        let buf := wr buf 3 p.timeout
        let buf := wr buf 4 p.timeout2
        let buf := wr buf 5 p.format_string
        let buf := wr buf 6 p.pin_block_string
        let buf := wr buf 7 p.ping_length_format
        let buf := wr buf 8 p.pin_max_extra_digit_msb
        let buf := wr buf 9 p.pin_max_extra_digit_lsb
        let buf := wr buf 10 p.pin_entry_valid_condition
        let buf := wr buf 11 p.pin_num_messages
        let buf := wr buf 12 p.language_id_msb
        let buf := wr buf 13 p.language_id_lsb
        let buf := wr buf 14 p.msg_index
        let buf := wr buf 15 (p.teo_prologue 0)
        let buf := wr buf 16 (p.teo_prologue 1)
        let buf := wr buf 17 (p.teo_prologue 2)
        let buf := wr buf 18 p.apdu_length_msb
        let buf := wr buf 19 p.apdu_length_lsb                -- len = 20
        let apdu_length : Int := (((p.apdu_length_msb <<< 8) ||| p.apdu_length_lsb : Nat) : Int)
        -- needed_space = max_len - len - sizeof(cmd->pin_entry.apdu)
        let needed_space := to_int (to_size_t (to_size_t (int_sub max_len 20) - sizeof_apdu))
        if to_size_t apdu_length > sizeof_apdu ∨ apdu_length > needed_space then (-1, buf)
        else
          -- memcpy(buf, cmd->pin_entry.apdu, apdu_length); len += apdu_length
          (20 + apdu_length, memcpy buf 0 p.apdu 0 (to_size_t apdu_length).toNat)
      else (3, buf)

/-! ## `osdp_trs_cmd_decode` -/

/-- The function `osdp_trs_cmd_decode(pd, buf, len)`: `trs` is `pd->trs`; the result is
the returned `int` and the command left in `pd->ephemeral_data`.  The comments
give the value of `pos` after each statement. -/
def osdp_trs_cmd_decode (trs : osdp_trs) (buf : Nat → Nat) (len : Int) :
    Int × osdp_trs_cmd :=
  let cmd := cmd_zero                                         -- memset
  let mode := rd buf 0                                        -- pos = 1
  let code := rd buf 1                                        -- pos = 2
  let mode_code := MODE_CODE mode code
  if mode_code_invalid mode code then (-1, cmd)
  -- if (!mode && mode != trs->mode)
  else if mode = 0 ∧ mode ≠ trs.mode then (-1, cmd)
  -- if (code == CMD_MODE_GET)
  else if code = CMD_MODE_GET then (0, cmd)
  -- if (code == CMD_MODE_SET)
  else if code = CMD_MODE_SET then
    (0, { cmd with mode_set := ⟨rd buf 2, rd buf 3⟩ })         -- pos = 4
  else
    -- pos++ (reader): pos = 3
    if mode_code = CMD_SEND_APDU then
      let apdu_length : Int := (rd buf 3 : Nat)                -- pos = 4
      let remaining_space := int_sub len 4
      if to_size_t apdu_length > sizeof_apdu ∨ apdu_length > remaining_space then (-1, cmd)
      else
        -- memcpy(cmd->send_apdu.apdu, buf, apdu_length); pos += apdu_length
        (4 + apdu_length,
          { cmd with send_apdu :=
              ⟨apdu_length, memcpy cmd.send_apdu.apdu 0 buf 0 (to_size_t apdu_length).toNat⟩ })
    else if mode_code = CMD_ENTER_PIN then
      let p : pin_entry :=
        { cmd.pin_entry with
          timeout := rd buf 3
          timeout2 := rd buf 4
          format_string := rd buf 5
          pin_block_string := rd buf 6
          ping_length_format := rd buf 7
          pin_max_extra_digit_msb := rd buf 8
          pin_max_extra_digit_lsb := rd buf 9
          pin_entry_valid_condition := rd buf 10
          pin_num_messages := rd buf 11
          language_id_msb := rd buf 12
          language_id_lsb := rd buf 13
          msg_index := rd buf 14
          teo_prologue :=
            wr (wr (wr cmd.pin_entry.teo_prologue 0 (rd buf 15)) 1 (rd buf 16)) 2 (rd buf 17)
          apdu_length_msb := rd buf 18
          apdu_length_lsb := rd buf 19 }                      -- pos = 20
      -- remaining_space = (len - pos - sizeof(cmd->pin_entry.apdu))
      let remaining_space := to_int (to_size_t (to_size_t (int_sub len 20) - sizeof_apdu))
      let apdu_length : Int := (((p.apdu_length_msb <<< 8) ||| p.apdu_length_lsb : Nat) : Int)
      if to_size_t apdu_length > sizeof_apdu ∨ apdu_length > remaining_space then
        (-1, { cmd with pin_entry := p })
      else
        -- memcpy(cmd->pin_entry.apdu, buf, apdu_length); pos += apdu_length
        (20 + apdu_length,
          { cmd with pin_entry :=
              { p with apdu := memcpy p.apdu 0 buf 0 (to_size_t apdu_length).toNat } })
    else (3, cmd)

/-! ## `osdp_trs_reply_decode` -/

/-- The record `struct cmd_reply_NAK`. -/
structure cmd_reply_NAK where
  err_code : Nat

/-- The record `struct mode_setting_report`. -/
structure mode_setting_report where
  mode : Nat
  mode_config : Nat

/-- The record `struct card_info_report`.  Its last two members, `csn[0]` and
`protocol_data[0]`, are zero-length arrays: both name the address that follows
`protocol_data_len`, and `tail` is the memory at that address. -/
structure card_info_report where
  reader : Nat
  protocol : Nat
  csn_len : Nat
  protocol_data_len : Nat
  tail : Nat → Nat

/-- The member `csn` of `struct card_info_report`. -/
def card_info_report.csn (r : card_info_report) : Nat → Nat := r.tail

/-- The member `protocol_data` of `struct card_info_report`. -/
def card_info_report.protocol_data (r : card_info_report) : Nat → Nat := r.tail

/-- The record `struct card_present_status`. -/
structure card_present_status where
  reader : Nat
  status : Nat

/-- The record `struct card_data`; `apdu` has 64 cells. -/
structure card_data where
  reader : Nat
  status : Nat
  apdu : Nat → Nat

/-- The record `struct pin_entry_complete`. -/
structure pin_entry_complete where
  reader : Nat
  status : Nat
  tries : Nat

/-- The record `struct osdp_trs_reply`: `mode_code` and the arms of its union. -/
structure osdp_trs_reply where
  mode_code : Nat
  reply_nak : cmd_reply_NAK
  mode_report : mode_setting_report
  card_info_report : card_info_report
  card_status : card_present_status
  card_data : card_data
  pin_entry_complete : pin_entry_complete

/-- The function `osdp_trs_reply_decode(pd, buf, len)`: `reply` is the reply held in
`pd->ephemeral_data` on entry; the result is the returned `int` and the reply
held there on return. -/
def osdp_trs_reply_decode (reply : osdp_trs_reply) (buf : Nat → Nat) (len : Int) :
    Int × osdp_trs_reply :=
  if reply.mode_code = REPLY_CURRENT_MODE then
    (0, { reply with mode_report := ⟨rd buf 0, rd buf 1⟩ })
  else if reply.mode_code = REPLY_CARD_INFO_REPORT then
    let csn_len := rd buf 2
    let prot_data_len := rd buf 3                             -- pos = 4
    -- memcpy(reply->card_info_report.csn, buf+pos, csn_len); pos += csn_len
    let tail := memcpy reply.card_info_report.csn 0 buf 4 csn_len
    -- memcpy(reply->card_info_report.protocol_data, buf+pos, prot_data_len)
    let tail := memcpy tail 0 buf (4 + csn_len) prot_data_len
    (0, { reply with
          card_info_report := ⟨rd buf 0, rd buf 1, csn_len, prot_data_len, tail⟩ })
  else if reply.mode_code = REPLY_CARD_PRSENT then
    (0, { reply with card_status := ⟨rd buf 0, rd buf 1⟩ })
  else if reply.mode_code = REPLY_CARD_DATA then
    -- memcpy(reply->card_data.apdu, buf+pos, len-2)
    (0, { reply with
          card_data :=
            ⟨rd buf 0, rd buf 1,
              memcpy reply.card_data.apdu 0 buf 2 (to_size_t (int_sub len 2)).toNat⟩ })
  else if reply.mode_code = REPLY_PIN_ENTRY_COMPLETE then
    (0, { reply with pin_entry_complete := ⟨rd buf 0, rd buf 1, rd buf 2⟩ })
  else (0, reply)

/-! ## `osdp_trs_reply_build` -/

/-- The function `osdp_trs_reply_build(pd, buf, max_len)`: `reply` is the reply held in
`pd->ephemeral_data`; the result is the returned `int` and the memory behind `buf`
after the call.  The function writes `reply->mode` and `reply->preply` first; the
declaration of `struct osdp_trs_reply` has these two members commented out, so
their values are the parameters `mode` and `preply`.  The comments give the value
of `len` after each statement. -/
def osdp_trs_reply_build (mode preply : Nat) (reply : osdp_trs_reply) (buf : Nat → Nat)
    (max_len : Int) : Int × (Nat → Nat) :=
  let buf := wr buf 0 mode                                    -- len = 1
  let buf := wr buf 1 preply                                  -- len = 2
  if reply.mode_code = REPLY_CURRENT_MODE then
    let buf := wr buf 2 reply.mode_report.mode
    let buf := wr buf 3 reply.mode_report.mode_config         -- len = 4
    (4, buf)
  else if reply.mode_code = REPLY_CARD_INFO_REPORT then
    let r := reply.card_info_report
    let buf := wr buf 2 r.reader
    let buf := wr buf 3 r.protocol
    let csn_len := r.csn_len
    let prot_data_len := r.protocol_data_len
    let buf := wr buf 4 r.csn_len
    let buf := wr buf 5 r.protocol_data_len                   -- len = 6
    -- memcpy(buf+len, reply->card_info_report.csn, csn_len); len += csn_len
    let buf := memcpy buf 6 r.csn 0 csn_len
    -- memcpy(buf+len, reply->card_info_report.protocol_data, prot_data_len)
    let buf := memcpy buf (6 + csn_len) r.protocol_data 0 prot_data_len
    -- len += prot_data_len
    (((6 + csn_len + prot_data_len : Nat) : Int), buf)
  else if reply.mode_code = REPLY_CARD_PRSENT then
    let buf := wr buf 2 reply.card_status.reader
    let buf := wr buf 3 reply.card_status.status              -- len = 4
    (4, buf)
  else if reply.mode_code = REPLY_CARD_DATA then
    let buf := wr buf 2 reply.card_data.reader
    let buf := wr buf 3 reply.card_data.status                -- len = 4
    -- memcpy(buf+len, reply->card_data.apdu, max_len-2); len stays 4
    (4, memcpy buf 4 reply.card_data.apdu 0 (to_size_t (int_sub max_len 2)).toNat)
  else if reply.mode_code = REPLY_PIN_ENTRY_COMPLETE then
    let buf := wr buf 2 reply.pin_entry_complete.reader
    let buf := wr buf 3 reply.pin_entry_complete.status
    let buf := wr buf 4 reply.pin_entry_complete.tries        -- len = 5
    (5, buf)
  else (2, buf)

/-! ## `pyosdp_utils.c` -/

/-- The function `pyosdp_dict_add_int(dict, key, val)`.  The two calls into the Python
runtime are parameters: `PyLong_FromLong` yields the new object or `none` for
`NULL`, `PyDict_SetItemString` yields its status (0 on success, -1 on failure)
and the dict after the call.  The result is the returned `int` and the dict. -/
def pyosdp_dict_add_int {D V : Type} (PyLong_FromLong : Int → Option V)
    (PyDict_SetItemString : D → String → V → Int × D) (dict : D) (key : String) (val : Int) :
    Int × D :=
  match PyLong_FromLong val with
  | none => (-1, dict)
  | some val_obj =>
    let r := PyDict_SetItemString dict key val_obj
    -- ret = PyDict_SetItemString(dict, key, val_obj); Py_DECREF(val_obj); return ret
    (r.1, r.2)

/-- The function `pyosdp_dict_add_str(dict, key, val)`, with `PyUnicode_FromString` and
`PyDict_SetItemString` as parameters. -/
def pyosdp_dict_add_str {D V : Type} (PyUnicode_FromString : String → Option V)
    (PyDict_SetItemString : D → String → V → Int × D) (dict : D) (key : String)
    (val : String) : Int × D :=
  match PyUnicode_FromString val with
  | none => (-1, dict)
  | some val_obj =>
    let r := PyDict_SetItemString dict key val_obj
    -- ret = PyDict_SetItemString(dict, key, val_obj); Py_DECREF(val_obj); return ret
    (r.1, r.2)

/-- The function `pyosdp_dict_add_bytes(dict, key, data, len)`, with `Py_BuildValue` (for
the format `y#`) and `PyDict_SetItemString` as parameters. -/
def pyosdp_dict_add_bytes {D V : Type} (Py_BuildValue : (Nat → Nat) → Int → Option V)
    (PyDict_SetItemString : D → String → V → Int × D) (dict : D) (key : String)
    (data : Nat → Nat) (len : Int) : Int × D :=
  match Py_BuildValue data len with
  | none => (-1, dict)
  | some obj =>
    let r := PyDict_SetItemString dict key obj
    -- ret = PyDict_SetItemString(dict, key, obj); Py_DECREF(obj); return 0
    (0, r.2)

/-! ## Sample values -/

/-- A command record of the given `mode_code` whose arms are all clear. -/
def cmd_of (mode_code : Nat) : osdp_trs_cmd := { cmd_zero with mode_code := mode_code }

/-- A `SEND_APDU` command carrying the listed APDU bytes and the given length. -/
def cmd_send_apdu (n : Int) (a : List Nat) : osdp_trs_cmd :=
  { cmd_zero with mode_code := CMD_SEND_APDU, send_apdu := ⟨n, of_list a⟩ }

/-- The APDU `00 A4 04 00 00` of the passthrough scenario. -/
def select_apdu : List Nat := [0x00, 0xA4, 0x04, 0x00, 0x00]

/-- An `ENTER_PIN` frame: header `01 03`, reader 0, the seventeen fixed bytes
`01 .. 0F 00 02` (APDU length 2) and the APDU `AB CD`. -/
def enter_pin_frame : Nat → Nat :=
  of_list [0x01, 0x03, 0x00, 1, 2, 3, 4, 5, 6, 7, 8, 9, 10, 11, 12, 13, 14, 15, 0, 2, 0xAB, 0xCD]

/-- Memory whose every cell holds the byte `v`. -/
def filled (v : Nat) : Nat → Nat := fun _ => v

/-- The memory `k` bytes further on: the pointer `buf + k`. -/
def advance (buf : Nat → Nat) (k : Nat) : Nat → Nat := fun i => buf (k + i)

/-- A `MODE_SET` command asking for the given mode and configuration. -/
def cmd_mode_set_of (mode config : Nat) : osdp_trs_cmd :=
  { cmd_zero with mode_code := CMD_MODE_SET, mode_set := ⟨mode, config⟩ }

/-- A reply record of the given `mode_code` whose arms are all clear. -/
def reply_of (mode_code : Nat) : osdp_trs_reply where
  mode_code := mode_code
  reply_nak := ⟨0⟩
  mode_report := ⟨0, 0⟩
  card_info_report := ⟨0, 0, 0, 0, zeroed⟩
  card_status := ⟨0, 0⟩
  card_data := ⟨0, 0, zeroed⟩
  pin_entry_complete := ⟨0, 0, 0⟩

/-- A `CURRENT_MODE` reply reporting the given mode and configuration. -/
def reply_current_mode (mode mode_config : Nat) : osdp_trs_reply :=
  { reply_of REPLY_CURRENT_MODE with mode_report := ⟨mode, mode_config⟩ }

/-- A `CARD_PRESENT` reply with the given reader and status. -/
def reply_card_present (reader status : Nat) : osdp_trs_reply :=
  { reply_of REPLY_CARD_PRSENT with card_status := ⟨reader, status⟩ }

/-- A `PIN_ENTRY_COMPLETE` reply with the given reader, status and tries. -/
def reply_pin_entry_complete (reader status tries : Nat) : osdp_trs_reply :=
  { reply_of REPLY_PIN_ENTRY_COMPLETE with pin_entry_complete := ⟨reader, status, tries⟩ }

/-- A dict as a list of (key, object) pairs; objects are numbered. -/
abbrev sample_dict : Type := List (String × Nat)

/-- An object creation that succeeds, with object 1. -/
def create_ok {α : Type} : α → Option Nat := fun _ => some 1

/-- A `PyDict_SetItemString` that fails: status -1, dict unchanged. -/
def set_item_fails : sample_dict → String → Nat → Int × sample_dict :=
  fun d _ _ => (-1, d)

/-- A `PyDict_SetItemString` that succeeds: status 0, the pair is put in front. -/
def set_item_ok : sample_dict → String → Nat → Int × sample_dict :=
  fun d k v => (0, (k, v) :: d)

/-- A `CARD_DATA` reply with the given reader and status and the listed APDU bytes. -/
def reply_card_data (reader status : Nat) (a : List Nat) : osdp_trs_reply :=
  { reply_of REPLY_CARD_DATA with card_data := ⟨reader, status, of_list a⟩ }


/-! ## Arithmetic of the byte macros -/

theorem BYTE_0_eq (x : Nat) : BYTE_0 x = x % 256 := by
  unfold BYTE_0
  have h : x &&& 0xFF = x % 256 := Nat.and_pow_two_sub_one_eq_mod x 8
  simp [h]

theorem BYTE_1_eq (x : Nat) : BYTE_1 x = x / 256 % 256 := by
  unfold BYTE_1
  have h : (x >>> 8) &&& 0xFF = (x >>> 8) % 256 := Nat.and_pow_two_sub_one_eq_mod (x >>> 8) 8
  rw [h, Nat.shiftRight_eq_div_pow]
  simp

theorem shl8_or_eq (a b : Nat) (hb : b < 256) : (a <<< 8) ||| b = a * 256 + b := by
  have h := Nat.mul_add_lt_is_or (show b < 2 ^ 8 by simpa using hb) a
  rw [Nat.shiftLeft_eq, Nat.mul_comm a (2 ^ 8), ← h]

theorem rd_lt (buf : Nat → Nat) (i : Nat) : rd buf i < 256 := by
  unfold rd; omega

/-! ## The command codec: round trip and validation -/

/-- C1, at the command `SEND_APDU` with APDU `00 A4 04 00 00` and `max_len = 64`:
the encoder returns 9, and the decoder run on the 9 bytes it produced, on a PD in
TRS mode 1, returns -1; the command is not recovered. -/
theorem C1_send_apdu_round_trip_rejected :
    (osdp_trs_cmd_build (cmd_send_apdu 5 select_apdu) zeroed 64).1 = 9 ∧
      (osdp_trs_cmd_decode ⟨.OSDP_TRS_STATE_INIT, 1⟩
        (osdp_trs_cmd_build (cmd_send_apdu 5 select_apdu) zeroed 64).2
        (osdp_trs_cmd_build (cmd_send_apdu 5 select_apdu) zeroed 64).1).1 = -1 := by
  decide

/-- C2: a (mode, code) pair with `code = 0`, or `mode` outside 0 and 1, or `mode = 0`
and `code > 2`, or `mode = 1` and `code > 4` is rejected with -1 by the encoder,
when it is the (high byte, low byte) of the command's `mode_code`, and by the
decoder, when it is the first two bytes of an input of at least two bytes,
whatever the TRS mode of the PD. -/
theorem C2_invalid_mode_code_rejected (mode code : Nat)
    (hbad : code = 0 ∨ (mode ≠ 0 ∧ mode ≠ 1) ∨ (mode = 0 ∧ code > 2) ∨ (mode = 1 ∧ code > 4)) :
    (∀ (cmd : osdp_trs_cmd) (buf : Nat → Nat) (max_len : Int),
        cmd.mode_code / 256 % 256 = mode → cmd.mode_code % 256 = code →
        (osdp_trs_cmd_build cmd buf max_len).1 = -1) ∧
      (∀ (trs : osdp_trs) (buf : Nat → Nat) (len : Int),
        2 ≤ len → rd buf 0 = mode → rd buf 1 = code →
        (osdp_trs_cmd_decode trs buf len).1 = -1) := by
  constructor
  · intro cmd buf max_len hm hc
    have hinv : mode_code_invalid (BYTE_1 cmd.mode_code) (BYTE_0 cmd.mode_code) := by
      rw [BYTE_1_eq, BYTE_0_eq, hm, hc]; exact hbad
    simp [osdp_trs_cmd_build, hinv]
  · intro trs buf len _ hm hc
    have hinv : mode_code_invalid (rd buf 0) (rd buf 1) := by
      rw [hm, hc]; exact hbad
    simp [osdp_trs_cmd_decode, hinv]

/-- C2 at `mode_code = 0x0003` for the encoder and at the input `02 01` for the decoder. -/
theorem C2_invalid_mode_code_rejected_witness :
    (osdp_trs_cmd_build (cmd_of 0x0003) zeroed 64).1 = -1 ∧
      (osdp_trs_cmd_decode ⟨.OSDP_TRS_STATE_INIT, 1⟩ (of_list [2, 1]) 2).1 = -1 :=
  ⟨(C2_invalid_mode_code_rejected 0 3 (by decide)).1 (cmd_of 0x0003) zeroed 64 rfl rfl,
    (C2_invalid_mode_code_rejected 2 1 (by decide)).2 ⟨.OSDP_TRS_STATE_INIT, 1⟩
      (of_list [2, 1]) 2 (by decide) rfl rfl⟩

/-- C3, at the input `01 04 00` (`CARD_SCAN`, a mode-1 command) of length 3 on a PD
whose TRS mode is 0: the decoder accepts the command and returns 3. -/
theorem C3_mode_1_command_accepted_in_mode_0 :
    (osdp_trs_cmd_decode ⟨.OSDP_TRS_STATE_INIT, 0⟩ (of_list [1, 4, 0]) 3).1 = 3 := by
  decide

/-- C4, at the command `SEND_APDU` with APDU `00 A4 04 00 00`, `max_len = 64` and a
cleared output buffer: the encoder returns 9 and the APDU lies at offset 0, over
the header; the buffer starts `00 A4 04 00 00 00 00 00 00` and not
`01 01 00 05 00 A4 04 00 00`. -/
theorem C4_send_apdu_written_at_offset_0 :
    (osdp_trs_cmd_build (cmd_send_apdu 5 select_apdu) zeroed 64).1 = 9 ∧
      bytes (osdp_trs_cmd_build (cmd_send_apdu 5 select_apdu) zeroed 64).2 9 =
        [0x00, 0xA4, 0x04, 0x00, 0x00, 0, 0, 0, 0] ∧
      bytes (osdp_trs_cmd_build (cmd_send_apdu 5 select_apdu) zeroed 64).2 9 ≠
        [0x01, 0x01, 0x00, 0x05, 0x00, 0xA4, 0x04, 0x00, 0x00] := by
  decide

/-- C5, at the input `01 01 00 05 00 A4 04 00 00` of length 9 on a PD in TRS mode 1:
the decoder returns 0 and the scratch command holds `apdu_length = 0` and a clear
`apdu`; the length 5 and the APDU `00 A4 04 00 00` are not stored. -/
theorem C5_send_apdu_not_decoded :
    (osdp_trs_cmd_decode ⟨.OSDP_TRS_STATE_INIT, 1⟩
        (of_list [0x01, 0x01, 0x00, 0x05, 0x00, 0xA4, 0x04, 0x00, 0x00]) 9).1 = 0 ∧
      (osdp_trs_cmd_decode ⟨.OSDP_TRS_STATE_INIT, 1⟩
        (of_list [0x01, 0x01, 0x00, 0x05, 0x00, 0xA4, 0x04, 0x00, 0x00]) 9).2.send_apdu.apdu_length
          = 0 ∧
      bytes (osdp_trs_cmd_decode ⟨.OSDP_TRS_STATE_INIT, 1⟩
        (of_list [0x01, 0x01, 0x00, 0x05, 0x00, 0xA4, 0x04, 0x00, 0x00]) 9).2.send_apdu.apdu 5
          = [0, 0, 0, 0, 0] := by
  decide

/-! ## Length checks of the encoder -/

/-- C6 as stated fails at `max_len = INT_MIN`: for `SEND_APDU` with `apdu_length = 0` the
difference `max_len - len` leaves the range of `int` and comes out as
`INT_MAX - 3`, so the encoder returns 4 although `0 > max_len - 4`. -/
theorem C6_send_apdu_length_check_counterexample :
    (osdp_trs_cmd_build (cmd_send_apdu 0 []) zeroed (-2147483648)).1 = 4 ∧
      ¬ ((osdp_trs_cmd_build (cmd_send_apdu 0 []) zeroed (-2147483648)).1 = -1 ↔
        ((cmd_send_apdu 0 []).send_apdu.apdu_length < 0 ∨
          (cmd_send_apdu 0 []).send_apdu.apdu_length > 64 ∨
          (cmd_send_apdu 0 []).send_apdu.apdu_length > -2147483648 - 4)) := by
  decide

/-- C6, amended: for a `SEND_APDU` command whose `apdu_length` is the `int` n and for
every `max_len` with INT_MIN + 4 ≤ max_len ≤ INT_MAX, the encoder returns -1
exactly when n is negative, n > 64 or n > max_len - 4, and returns 4 + n in
every other case. -/
theorem C6_send_apdu_length_check (cmd : osdp_trs_cmd) (buf : Nat → Nat) (max_len : Int)
    (hcode : cmd.mode_code = CMD_SEND_APDU) (hn : is_int cmd.send_apdu.apdu_length)
    (hmin : -2147483648 + 4 ≤ max_len) (hmax : max_len ≤ 2147483647) :
    ((osdp_trs_cmd_build cmd buf max_len).1 = -1 ↔
        (cmd.send_apdu.apdu_length < 0 ∨ cmd.send_apdu.apdu_length > 64 ∨
          cmd.send_apdu.apdu_length > max_len - 4)) ∧
      (¬ (cmd.send_apdu.apdu_length < 0 ∨ cmd.send_apdu.apdu_length > 64 ∨
          cmd.send_apdu.apdu_length > max_len - 4) →
        (osdp_trs_cmd_build cmd buf max_len).1 = 4 + cmd.send_apdu.apdu_length) := by
  obtain ⟨hlo, hhi⟩ := hn
  have hvalid : ¬ mode_code_invalid (BYTE_1 CMD_SEND_APDU) (BYTE_0 CMD_SEND_APDU) := by
    decide
  have h1 : CMD_SEND_APDU ≠ CMD_MODE_GET := by decide
  have h2 : CMD_SEND_APDU ≠ CMD_MODE_SET := by decide
  have hsub : int_sub max_len 4 = max_len - 4 := by
    unfold int_sub to_int
    omega
  have hsz : to_size_t cmd.send_apdu.apdu_length > sizeof_apdu ↔
      (cmd.send_apdu.apdu_length < 0 ∨ cmd.send_apdu.apdu_length > 64) := by
    unfold to_size_t sizeof_apdu
    omega
  by_cases hrej : to_size_t cmd.send_apdu.apdu_length > sizeof_apdu ∨
      cmd.send_apdu.apdu_length > max_len - 4
  · have hret : (osdp_trs_cmd_build cmd buf max_len).1 = -1 := by
      simp only [osdp_trs_cmd_build, hvalid, h1, h2, hcode, hsub, hrej, if_true, if_false]
    have hcl : cmd.send_apdu.apdu_length < 0 ∨ cmd.send_apdu.apdu_length > 64 ∨
        cmd.send_apdu.apdu_length > max_len - 4 := by
      rcases hrej with h | h
      · rcases hsz.mp h with h | h
        · exact Or.inl h
        · exact Or.inr (Or.inl h)
      · exact Or.inr (Or.inr h)
    exact ⟨⟨fun _ => hcl, fun _ => hret⟩, fun hno => absurd hcl hno⟩
  · have hret : (osdp_trs_cmd_build cmd buf max_len).1 = 4 + cmd.send_apdu.apdu_length := by
      simp only [osdp_trs_cmd_build, hvalid, h1, h2, hcode, hsub, hrej, if_true, if_false]
    have hncl : ¬ (cmd.send_apdu.apdu_length < 0 ∨ cmd.send_apdu.apdu_length > 64 ∨
        cmd.send_apdu.apdu_length > max_len - 4) := by
      intro hcl
      apply hrej
      rcases hcl with h | h | h
      · exact Or.inl (hsz.mpr (Or.inl h))
      · exact Or.inl (hsz.mpr (Or.inr h))
      · exact Or.inr h
    have hnn : 0 ≤ cmd.send_apdu.apdu_length := by
      by_contra hneg
      exact hncl (Or.inl (by omega))
    refine ⟨⟨fun h => ?_, fun hcl => absurd hcl hncl⟩, fun _ => hret⟩
    rw [hret] at h
    omega

/-- C6 at `SEND_APDU` with `apdu_length = 5` and `max_len = 64`: the encoder returns 9. -/
theorem C6_send_apdu_length_check_witness :
    (cmd_send_apdu 5 select_apdu).mode_code = CMD_SEND_APDU ∧
      is_int (cmd_send_apdu 5 select_apdu).send_apdu.apdu_length ∧
      (-2147483648 + 4 : Int) ≤ 64 ∧ (64 : Int) ≤ 2147483647 ∧
      (osdp_trs_cmd_build (cmd_send_apdu 5 select_apdu) zeroed 64).1 = 4 + 5 :=
  ⟨rfl, by decide, by decide, by decide,
    (C6_send_apdu_length_check (cmd_send_apdu 5 select_apdu) zeroed 64 rfl (by decide)
      (by decide) (by decide)).2 (by decide)⟩

/-- C7, at an `ENTER_PIN` command with a two-byte APDU length of 0: the message has
20 bytes, yet the encoder returns -1 for `max_len = 20` and for `max_len = 83`,
and returns 20 only from `max_len = 84` on. -/
theorem C7_enter_pin_rejected_though_it_fits :
    (osdp_trs_cmd_build (cmd_of CMD_ENTER_PIN) zeroed 20).1 = -1 ∧
      (osdp_trs_cmd_build (cmd_of CMD_ENTER_PIN) zeroed 83).1 = -1 ∧
      (osdp_trs_cmd_build (cmd_of CMD_ENTER_PIN) zeroed 84).1 = 20 := by
  decide

/-! ## `ENTER_PIN` in the decoder -/

/-- C8: when the input starts with the bytes (1, 3) and the decoder accepts it, the
seventeen fixed `pin_entry` fields of the scratch command are the input bytes at
offsets 3 to 19, in the order of the layout, and the value returned is
20 + (apdu_length_msb * 256 + apdu_length_lsb). -/
theorem C8_enter_pin_field_order (trs : osdp_trs) (buf : Nat → Nat) (len : Int)
    (hmode : rd buf 0 = 1) (hcode : rd buf 1 = 3)
    (hacc : 0 ≤ (osdp_trs_cmd_decode trs buf len).1) :
    (osdp_trs_cmd_decode trs buf len).2.pin_entry.timeout = rd buf 3 ∧
      (osdp_trs_cmd_decode trs buf len).2.pin_entry.timeout2 = rd buf 4 ∧
      (osdp_trs_cmd_decode trs buf len).2.pin_entry.format_string = rd buf 5 ∧
      (osdp_trs_cmd_decode trs buf len).2.pin_entry.pin_block_string = rd buf 6 ∧
      (osdp_trs_cmd_decode trs buf len).2.pin_entry.ping_length_format = rd buf 7 ∧
      (osdp_trs_cmd_decode trs buf len).2.pin_entry.pin_max_extra_digit_msb = rd buf 8 ∧
      (osdp_trs_cmd_decode trs buf len).2.pin_entry.pin_max_extra_digit_lsb = rd buf 9 ∧
      (osdp_trs_cmd_decode trs buf len).2.pin_entry.pin_entry_valid_condition = rd buf 10 ∧
      (osdp_trs_cmd_decode trs buf len).2.pin_entry.pin_num_messages = rd buf 11 ∧
      (osdp_trs_cmd_decode trs buf len).2.pin_entry.language_id_msb = rd buf 12 ∧
      (osdp_trs_cmd_decode trs buf len).2.pin_entry.language_id_lsb = rd buf 13 ∧
      (osdp_trs_cmd_decode trs buf len).2.pin_entry.msg_index = rd buf 14 ∧
      (osdp_trs_cmd_decode trs buf len).2.pin_entry.teo_prologue 0 = rd buf 15 ∧
      (osdp_trs_cmd_decode trs buf len).2.pin_entry.teo_prologue 1 = rd buf 16 ∧
      (osdp_trs_cmd_decode trs buf len).2.pin_entry.teo_prologue 2 = rd buf 17 ∧
      (osdp_trs_cmd_decode trs buf len).2.pin_entry.apdu_length_msb = rd buf 18 ∧
      (osdp_trs_cmd_decode trs buf len).2.pin_entry.apdu_length_lsb = rd buf 19 ∧
      (osdp_trs_cmd_decode trs buf len).1 =
        20 + (((osdp_trs_cmd_decode trs buf len).2.pin_entry.apdu_length_msb * 256 +
          (osdp_trs_cmd_decode trs buf len).2.pin_entry.apdu_length_lsb : Nat) : Int) := by
  have hvalid : ¬ mode_code_invalid 1 3 := by decide
  have hgate : ¬ ((1 : Nat) = 0 ∧ (1 : Nat) ≠ trs.mode) := by simp
  have hget : (3 : Nat) ≠ CMD_MODE_GET := by decide
  have hset : (3 : Nat) ≠ CMD_MODE_SET := by decide
  have hsend : CMD_ENTER_PIN ≠ CMD_SEND_APDU := by decide
  have hpin : MODE_CODE 1 3 = CMD_ENTER_PIN := rfl
  have hor : (rd buf 18 <<< 8) ||| rd buf 19 = rd buf 18 * 256 + rd buf 19 :=
    shl8_or_eq _ _ (rd_lt buf 19)
  have h15 : rd buf 15 % 256 = rd buf 15 := Nat.mod_eq_of_lt (rd_lt buf 15)
  have h16 : rd buf 16 % 256 = rd buf 16 := Nat.mod_eq_of_lt (rd_lt buf 16)
  have h17 : rd buf 17 % 256 = rd buf 17 := Nat.mod_eq_of_lt (rd_lt buf 17)
  by_cases hrej :
      to_size_t (((rd buf 18 <<< 8) ||| rd buf 19 : Nat) : Int) > sizeof_apdu ∨
        (((rd buf 18 <<< 8) ||| rd buf 19 : Nat) : Int) >
          to_int (to_size_t (to_size_t (int_sub len 20) - sizeof_apdu))
  · exfalso
    have hret : (osdp_trs_cmd_decode trs buf len).1 = -1 := by
      simp only [osdp_trs_cmd_decode, hmode, hcode, hvalid, hgate, hget, hset, hsend, hpin,
        hrej, if_true, if_false]
    rw [hret] at hacc
    omega
  · simp only [osdp_trs_cmd_decode, hmode, hcode, hvalid, hgate, hget, hset, hsend, hpin,
      hrej, if_true, if_false]
    simp [wr, h15, h16, h17, hor]

/-- C8 at the frame `01 03 00 01 .. 0F 00 02 AB CD` with `len = 86` on a PD in TRS
mode 1: the decoder accepts it and `timeout` is the byte at offset 3. -/
theorem C8_enter_pin_field_order_witness :
    rd enter_pin_frame 0 = 1 ∧ rd enter_pin_frame 1 = 3 ∧
      0 ≤ (osdp_trs_cmd_decode ⟨.OSDP_TRS_STATE_INIT, 1⟩ enter_pin_frame 86).1 ∧
      (osdp_trs_cmd_decode ⟨.OSDP_TRS_STATE_INIT, 1⟩ enter_pin_frame 86).2.pin_entry.timeout =
        rd enter_pin_frame 3 :=
  ⟨rfl, rfl, by decide,
    (C8_enter_pin_field_order ⟨.OSDP_TRS_STATE_INIT, 1⟩ enter_pin_frame 86 rfl rfl
      (by decide)).1⟩

/-! ## The reply decoder and the mode gate -/

/-- C9, at a `CARD_INFO_REPORT` body `00 00 02 01` of `len = 4` (`csn_len = 2`,
`protocol_data_len = 1`, no byte left for them) lying in memory before the bytes
`AA BB CC`: the reply decoder returns 0 and has copied the bytes behind the body;
the scratch reply holds `csn_len = 2`, `protocol_data_len = 1` and, at the address
of `csn` and `protocol_data`, the bytes `CC BB`. -/
theorem C9_card_info_report_lengths_unchecked :
    (osdp_trs_reply_decode (reply_of REPLY_CARD_INFO_REPORT)
        (of_list [0x00, 0x00, 0x02, 0x01, 0xAA, 0xBB, 0xCC]) 4).1 = 0 ∧
      (osdp_trs_reply_decode (reply_of REPLY_CARD_INFO_REPORT)
        (of_list [0x00, 0x00, 0x02, 0x01, 0xAA, 0xBB, 0xCC]) 4).2.card_info_report.csn_len = 2 ∧
      (osdp_trs_reply_decode (reply_of REPLY_CARD_INFO_REPORT)
        (of_list [0x00, 0x00, 0x02, 0x01, 0xAA, 0xBB, 0xCC]) 4).2.card_info_report.protocol_data_len
          = 1 ∧
      bytes (osdp_trs_reply_decode (reply_of REPLY_CARD_INFO_REPORT)
        (of_list [0x00, 0x00, 0x02, 0x01, 0xAA, 0xBB, 0xCC]) 4).2.card_info_report.csn 2
          = [0xCC, 0xBB] := by
  decide

/-- C10, on a PD whose TRS mode is 1: the decoder returns -1 for `MODE_GET`
(`00 01`, length 2) and for the `MODE_SET` back to mode 0 (`00 02 00 00`,
length 4), while the same two inputs are accepted with 0 on a PD in mode 0. -/
theorem C10_mode_0_commands_rejected_in_mode_1 :
    (osdp_trs_cmd_decode ⟨.OSDP_TRS_STATE_INIT, 1⟩ (of_list [0x00, 0x01]) 2).1 = -1 ∧
      (osdp_trs_cmd_decode ⟨.OSDP_TRS_STATE_INIT, 1⟩ (of_list [0x00, 0x02, 0x00, 0x00]) 4).1 = -1 ∧
      (osdp_trs_cmd_decode ⟨.OSDP_TRS_STATE_INIT, 0⟩ (of_list [0x00, 0x01]) 2).1 = 0 ∧
      (osdp_trs_cmd_decode ⟨.OSDP_TRS_STATE_INIT, 0⟩ (of_list [0x00, 0x02, 0x00, 0x00]) 4).1 = 0 := by
  decide

/-! ## The fixed-size commands and the packing of (mode, code) -/

theorem bytes_two (f : Nat → Nat) : bytes f 2 = [rd f 0, rd f 1] := rfl

theorem bytes_three (f : Nat → Nat) : bytes f 3 = [rd f 0, rd f 1, rd f 2] := rfl

theorem bytes_four (f : Nat → Nat) : bytes f 4 = [rd f 0, rd f 1, rd f 2, rd f 3] := rfl

/-- C11: whatever `max_len` at least as large as the message, the encoder returns 2
and writes `00 01` for `MODE_GET`; returns 4 and writes `00 02`, `mode_set.mode`,
`mode_set.config` for `MODE_SET`; returns 3 and writes `01 02 00` for `TERMINATE`;
returns 3 and writes `01 04 00` for `CARD_SCAN`. -/
theorem C11_fixed_size_commands (cmd : osdp_trs_cmd) (buf : Nat → Nat) (max_len : Int) :
    (cmd.mode_code = CMD_MODE_GET → 2 ≤ max_len →
        (osdp_trs_cmd_build cmd buf max_len).1 = 2 ∧
          bytes (osdp_trs_cmd_build cmd buf max_len).2 2 = [0x00, 0x01]) ∧
      (cmd.mode_code = CMD_MODE_SET → 4 ≤ max_len →
        cmd.mode_set.mode < 256 → cmd.mode_set.config < 256 →
        (osdp_trs_cmd_build cmd buf max_len).1 = 4 ∧
          bytes (osdp_trs_cmd_build cmd buf max_len).2 4 =
            [0x00, 0x02, cmd.mode_set.mode, cmd.mode_set.config]) ∧
      (cmd.mode_code = CMD_TERMINATE → 3 ≤ max_len →
        (osdp_trs_cmd_build cmd buf max_len).1 = 3 ∧
          bytes (osdp_trs_cmd_build cmd buf max_len).2 3 = [0x01, 0x02, 0x00]) ∧
      (cmd.mode_code = CMD_CARD_SCAN → 3 ≤ max_len →
        (osdp_trs_cmd_build cmd buf max_len).1 = 3 ∧
          bytes (osdp_trs_cmd_build cmd buf max_len).2 3 = [0x01, 0x04, 0x00]) := by
  refine ⟨?_, ?_, ?_, ?_⟩
  · intro h _
    have hv : ¬ mode_code_invalid 0 1 := by decide
    have hb1 : BYTE_1 CMD_MODE_GET = 0 := by decide
    have hb0 : BYTE_0 CMD_MODE_GET = 1 := by decide
    simp only [osdp_trs_cmd_build, h, hv, if_true, if_false, bytes_two, hb1, hb0]
    simp [rd, wr]
  · intro h _ hm hc
    have hv : ¬ mode_code_invalid 0 2 := by decide
    have hne : CMD_MODE_SET ≠ CMD_MODE_GET := by decide
    have hb1 : BYTE_1 CMD_MODE_SET = 0 := by decide
    have hb0 : BYTE_0 CMD_MODE_SET = 2 := by decide
    have hm2 : cmd.mode_set.mode % 256 = cmd.mode_set.mode := Nat.mod_eq_of_lt hm
    have hc2 : cmd.mode_set.config % 256 = cmd.mode_set.config := Nat.mod_eq_of_lt hc
    simp only [osdp_trs_cmd_build, h, hv, hne, if_true, if_false, bytes_four, hb1, hb0]
    simp [rd, wr, hm2, hc2]
  · intro h _
    have hv : ¬ mode_code_invalid 1 2 := by decide
    have h1 : CMD_TERMINATE ≠ CMD_MODE_GET := by decide
    have h2 : CMD_TERMINATE ≠ CMD_MODE_SET := by decide
    have h3 : CMD_TERMINATE ≠ CMD_SEND_APDU := by decide
    have h4 : CMD_TERMINATE ≠ CMD_ENTER_PIN := by decide
    have hb1 : BYTE_1 CMD_TERMINATE = 1 := by decide
    have hb0 : BYTE_0 CMD_TERMINATE = 2 := by decide
    simp only [osdp_trs_cmd_build, h, hv, h1, h2, h3, h4, if_true, if_false, bytes_three,
      hb1, hb0]
    simp [rd, wr]
  · intro h _
    have hv : ¬ mode_code_invalid 1 4 := by decide
    have h1 : CMD_CARD_SCAN ≠ CMD_MODE_GET := by decide
    have h2 : CMD_CARD_SCAN ≠ CMD_MODE_SET := by decide
    have h3 : CMD_CARD_SCAN ≠ CMD_SEND_APDU := by decide
    have h4 : CMD_CARD_SCAN ≠ CMD_ENTER_PIN := by decide
    have hb1 : BYTE_1 CMD_CARD_SCAN = 1 := by decide
    have hb0 : BYTE_0 CMD_CARD_SCAN = 4 := by decide
    simp only [osdp_trs_cmd_build, h, hv, h1, h2, h3, h4, if_true, if_false, bytes_three,
      hb1, hb0]
    simp [rd, wr]

/-- C11 at `MODE_GET` with `max_len = 2`, `MODE_SET` to mode 1 and configuration 7
with `max_len = 4`, and `TERMINATE` and `CARD_SCAN` with `max_len = 3`. -/
theorem C11_fixed_size_commands_witness :
    ((osdp_trs_cmd_build (cmd_of CMD_MODE_GET) zeroed 2).1 = 2 ∧
        bytes (osdp_trs_cmd_build (cmd_of CMD_MODE_GET) zeroed 2).2 2 = [0x00, 0x01]) ∧
      ((osdp_trs_cmd_build (cmd_mode_set_of 1 7) zeroed 4).1 = 4 ∧
        bytes (osdp_trs_cmd_build (cmd_mode_set_of 1 7) zeroed 4).2 4 =
          [0x00, 0x02, (cmd_mode_set_of 1 7).mode_set.mode,
            (cmd_mode_set_of 1 7).mode_set.config]) ∧
      ((osdp_trs_cmd_build (cmd_of CMD_TERMINATE) zeroed 3).1 = 3 ∧
        bytes (osdp_trs_cmd_build (cmd_of CMD_TERMINATE) zeroed 3).2 3 = [0x01, 0x02, 0x00]) ∧
      ((osdp_trs_cmd_build (cmd_of CMD_CARD_SCAN) zeroed 3).1 = 3 ∧
        bytes (osdp_trs_cmd_build (cmd_of CMD_CARD_SCAN) zeroed 3).2 3 = [0x01, 0x04, 0x00]) :=
  ⟨(C11_fixed_size_commands (cmd_of CMD_MODE_GET) zeroed 2).1 rfl (by decide),
    (C11_fixed_size_commands (cmd_mode_set_of 1 7) zeroed 4).2.1 rfl (by decide)
      (by decide) (by decide),
    (C11_fixed_size_commands (cmd_of CMD_TERMINATE) zeroed 3).2.2.1 rfl (by decide),
    (C11_fixed_size_commands (cmd_of CMD_CARD_SCAN) zeroed 3).2.2.2 rfl (by decide)⟩

theorem MODE_CODE_eq (mode pcmnd : Nat) :
    MODE_CODE mode pcmnd = mode % 256 * 256 + pcmnd % 256 := by
  unfold MODE_CODE
  have hm : mode &&& 0xff = mode % 256 := Nat.and_pow_two_sub_one_eq_mod mode 8
  have hc : pcmnd &&& 0xff = pcmnd % 256 := Nat.and_pow_two_sub_one_eq_mod pcmnd 8
  rw [hm, hc, shl8_or_eq _ _ (Nat.mod_lt _ (by decide))]
  omega

/-- C12: for bytes `mode` and `code`, `MODE_CODE(mode, code)` is `mode * 256 + code`, and
`BYTE_1` and `BYTE_0` give back `mode` and `code`; for a 16-bit `x`,
`MODE_CODE(BYTE_1(x), BYTE_0(x))` is `x`; the six command codes are pairwise
distinct, and so are the five reply codes. -/
theorem C12_mode_code_packing :
    (∀ mode code : Nat, mode < 256 → code < 256 →
        MODE_CODE mode code = mode * 256 + code ∧
          BYTE_1 (MODE_CODE mode code) = mode ∧ BYTE_0 (MODE_CODE mode code) = code) ∧
      (∀ x : Nat, x < 65536 → MODE_CODE (BYTE_1 x) (BYTE_0 x) = x) ∧
      [CMD_MODE_GET, CMD_MODE_SET, CMD_SEND_APDU, CMD_TERMINATE, CMD_ENTER_PIN,
        CMD_CARD_SCAN].Nodup ∧
      [REPLY_CURRENT_MODE, REPLY_CARD_INFO_REPORT, REPLY_CARD_PRSENT, REPLY_CARD_DATA,
        REPLY_PIN_ENTRY_COMPLETE].Nodup := by
  refine ⟨?_, ?_, by decide, by decide⟩
  · intro mode code hm hc
    rw [BYTE_1_eq, BYTE_0_eq, MODE_CODE_eq]
    omega
  · intro x hx
    rw [BYTE_1_eq, BYTE_0_eq, MODE_CODE_eq]
    omega

/-- C12 at (mode, code) = (1, 3), the pair of `ENTER_PIN`, and at `x = 0x0103`. -/
theorem C12_mode_code_packing_witness :
    (MODE_CODE 1 3 = 1 * 256 + 3 ∧ BYTE_1 (MODE_CODE 1 3) = 1 ∧ BYTE_0 (MODE_CODE 1 3) = 3) ∧
      MODE_CODE (BYTE_1 0x0103) (BYTE_0 0x0103) = 0x0103 :=
  ⟨C12_mode_code_packing.1 1 3 (by decide) (by decide),
    C12_mode_code_packing.2.1 0x0103 (by decide)⟩

/-! ## `AES_PAD_LEN` and the wire constants -/

theorem ldiff_15_eq (m : Nat) : Nat.ldiff m 15 = m / 16 * 16 := by
  apply Nat.eq_of_testBit_eq
  intro i
  have h15 : Nat.testBit 15 i = decide (i < 4) := Nat.testBit_two_pow_sub_one 4 i
  have hmul : m / 16 * 16 = 2 ^ 4 * (m >>> 4) := by
    rw [Nat.shiftRight_eq_div_pow]; omega
  rw [Nat.testBit_ldiff, h15, hmul, Nat.testBit_mul_pow_two, Nat.testBit_shiftRight]
  by_cases hi : i < 4
  · have hge : ¬ i ≥ 4 := by omega
    simp [hi, hge]
  · have hge : i ≥ 4 := by omega
    have hidx : 4 + (i - 4) = i := by omega
    simp [hi, hge, hidx]

theorem AES_PAD_LEN_eq (x : Int) (h0 : 0 ≤ x) : AES_PAD_LEN x = (x + 15) / 16 * 16 := by
  obtain ⟨m, hm⟩ : ∃ m : Nat, x + 16 - 1 = (m : Int) := ⟨(x + 15).toNat, by omega⟩
  have hland : Int.land (m : Int) (Int.lnot (16 - 1)) = ((Nat.ldiff m 15 : Nat) : Int) := rfl
  unfold AES_PAD_LEN
  rw [hm, hland, ldiff_15_eq]
  have hx : x + 15 = (m : Int) := by omega
  rw [hx]
  push_cast
  rfl

/-- C13: for an `int` x with 0 ≤ x ≤ INT_MAX - 15, `AES_PAD_LEN(x)` is the least
multiple of 16 that is at least x; hence x ≤ AES_PAD_LEN(x) < x + 16, the value is
x exactly when x is a multiple of 16, and `AES_PAD_LEN` is monotone and idempotent. -/
theorem C13_aes_pad_len (x : Int) (h0 : 0 ≤ x) (h1 : x ≤ 2147483647 - 15) :
    (16 ∣ AES_PAD_LEN x ∧ x ≤ AES_PAD_LEN x ∧
        ∀ m : Int, 16 ∣ m → x ≤ m → AES_PAD_LEN x ≤ m) ∧
      AES_PAD_LEN x < x + 16 ∧
      (AES_PAD_LEN x = x ↔ 16 ∣ x) ∧
      (∀ y : Int, x ≤ y → y ≤ 2147483647 - 15 → AES_PAD_LEN x ≤ AES_PAD_LEN y) ∧
      AES_PAD_LEN (AES_PAD_LEN x) = AES_PAD_LEN x := by
  have hx := AES_PAD_LEN_eq x h0
  have hnn : 0 ≤ AES_PAD_LEN x := by rw [hx]; omega
  have hxx := AES_PAD_LEN_eq (AES_PAD_LEN x) hnn
  refine ⟨⟨?_, ?_, ?_⟩, ?_, ?_, ?_, ?_⟩
  · omega
  · omega
  · intro m hm hxm
    omega
  · omega
  · constructor
    · intro h; omega
    · intro h; omega
  · intro y hxy _
    have hy := AES_PAD_LEN_eq y (by omega)
    omega
  · omega

/-- C13 at x = 17: `AES_PAD_LEN(17)` is a multiple of 16, at least 17 and below 33. -/
theorem C13_aes_pad_len_witness :
    (0 : Int) ≤ 17 ∧ (17 : Int) ≤ 2147483647 - 15 ∧
      16 ∣ AES_PAD_LEN 17 ∧ 17 ≤ AES_PAD_LEN 17 ∧ AES_PAD_LEN 17 < 17 + 16 :=
  ⟨by decide, by decide, (C13_aes_pad_len 17 (by decide) (by decide)).1.1,
    (C13_aes_pad_len 17 (by decide) (by decide)).1.2.1,
    (C13_aes_pad_len 17 (by decide) (by decide)).2.1⟩

/-- C14: `CMD_POLL` is 0x60, `CMD_ID` is 0x61, `REPLY_ACK` is 0x40, `REPLY_PDID` is 0x45,
the block types `SCS_11` to `SCS_18` are the consecutive values 0x11 to 0x18, and a
value is one of the defined block types exactly when it lies in 0x11..0x18. -/
theorem C14_wire_constants :
    CMD_POLL = 0x60 ∧ CMD_ID = 0x61 ∧ REPLY_ACK = 0x40 ∧ REPLY_PDID = 0x45 ∧
      scs_types = [0x11, 0x12, 0x13, 0x14, 0x15, 0x16, 0x17, 0x18] ∧
      ∀ v : Nat, v ∈ scs_types ↔ 0x11 ≤ v ∧ v ≤ 0x18 := by
  refine ⟨rfl, rfl, rfl, rfl, rfl, ?_⟩
  intro v
  simp only [scs_types, SCS_11, SCS_12, SCS_13, SCS_14, SCS_15, SCS_16, SCS_17, SCS_18,
    List.mem_cons, List.mem_singleton, List.mem_nil_iff, or_false]
  omega

/-! ## Bounds of the buffers -/

/-- C15, at the two-byte input `00 02` (`MODE_SET`, whose fixed part has 4 bytes) with
`len = 2` on a PD in TRS mode 0, lying in memory before the bytes `07 09`: the
decoder returns 0, not -1, and has read the bytes at offsets 2 and 3, which it
stores as `mode_set.mode = 7` and `mode_set.config = 9`; with `len = 0` it still
reads the header `00 01` and returns 0. -/
theorem C15_decoder_reads_past_len :
    (osdp_trs_cmd_decode ⟨.OSDP_TRS_STATE_INIT, 0⟩ (of_list [0x00, 0x02, 0x07, 0x09]) 2).1 = 0 ∧
      (osdp_trs_cmd_decode ⟨.OSDP_TRS_STATE_INIT, 0⟩
        (of_list [0x00, 0x02, 0x07, 0x09]) 2).2.mode_set.mode = 7 ∧
      (osdp_trs_cmd_decode ⟨.OSDP_TRS_STATE_INIT, 0⟩
        (of_list [0x00, 0x02, 0x07, 0x09]) 2).2.mode_set.config = 9 ∧
      (osdp_trs_cmd_decode ⟨.OSDP_TRS_STATE_INIT, 0⟩ (of_list [0x00, 0x01]) 0).1 = 0 := by
  decide

/-- C16, at `MODE_GET` with `max_len = 0` and at `MODE_SET` (mode 1, configuration 7)
with `max_len = 2`, on an output buffer filled with `FF`: the encoder succeeds
with 2, resp. 4, more than `max_len`, and the bytes at offsets 0 and 1, resp. 2
and 3, beyond `max_len`, have been written. -/
theorem C16_encoder_writes_past_max_len :
    (osdp_trs_cmd_build (cmd_of CMD_MODE_GET) (filled 0xFF) 0).1 = 2 ∧
      bytes (osdp_trs_cmd_build (cmd_of CMD_MODE_GET) (filled 0xFF) 0).2 3 =
        [0x00, 0x01, 0xFF] ∧
      (osdp_trs_cmd_build (cmd_mode_set_of 1 7) (filled 0xFF) 2).1 = 4 ∧
      bytes (osdp_trs_cmd_build (cmd_mode_set_of 1 7) (filled 0xFF) 2).2 5 =
        [0x00, 0x02, 0x01, 0x07, 0xFF] := by
  decide

/-- C17, at a `CARD_DATA` body of `len = 70` whose bytes are all `AA`: the reply decoder
returns 0 and has copied 68 bytes, so the cells 64 to 67 behind the 64-cell
`card_data.apdu` hold `AA` (cell 68 is untouched). -/
theorem C17_card_data_copy_unbounded :
    (osdp_trs_reply_decode (reply_of REPLY_CARD_DATA) (filled 0xAA) 70).1 = 0 ∧
      (osdp_trs_reply_decode (reply_of REPLY_CARD_DATA) (filled 0xAA) 70).2.card_data.reader
        = 0xAA ∧
      (osdp_trs_reply_decode (reply_of REPLY_CARD_DATA) (filled 0xAA) 70).2.card_data.apdu 64
        = 0xAA ∧
      (osdp_trs_reply_decode (reply_of REPLY_CARD_DATA) (filled 0xAA) 70).2.card_data.apdu 67
        = 0xAA ∧
      (osdp_trs_reply_decode (reply_of REPLY_CARD_DATA) (filled 0xAA) 70).2.card_data.apdu 68
        = 0 := by
  decide

/-- C18, at the frame `01 03 00 01 .. 0F 00 02 AB CD` with `len = 86` on a PD in TRS
mode 1: the decoder accepts it with 22, the two APDU bytes at offsets 20 and 21
are `AB CD`, and the decoded `pin_entry.apdu` starts `01 03`, the first two bytes
of the input. -/
theorem C18_enter_pin_apdu_copied_from_offset_0 :
    (osdp_trs_cmd_decode ⟨.OSDP_TRS_STATE_INIT, 1⟩ enter_pin_frame 86).1 = 22 ∧
      bytes (advance enter_pin_frame 20) 2 = [0xAB, 0xCD] ∧
      bytes (osdp_trs_cmd_decode ⟨.OSDP_TRS_STATE_INIT, 1⟩ enter_pin_frame 86).2.pin_entry.apdu 2
        = [0x01, 0x03] := by
  decide

/-! ## The reply encoder -/

/-- C19, at the `CARD_DATA` reply with reader 0, status 0 and APDU `90 00`, header
bytes (1, 2), `max_len = 8` and an output buffer filled with `FF`: the encoder
returns 4, yet it has placed ten bytes, `01 02 00 00 90 00 00 00 00 00`; the
returned length does not cover the APDU bytes behind reader and status. -/
theorem C19_card_data_length_not_counted :
    (osdp_trs_reply_build 1 2 (reply_card_data 0 0 [0x90, 0x00]) (filled 0xFF) 8).1 = 4 ∧
      bytes (osdp_trs_reply_build 1 2 (reply_card_data 0 0 [0x90, 0x00]) (filled 0xFF) 8).2 12 =
        [0x01, 0x02, 0x00, 0x00, 0x90, 0x00, 0x00, 0x00, 0x00, 0x00, 0xFF, 0xFF] := by
  decide

/-- C20: for a reply `r` of kind `CURRENT_MODE`, `CARD_PRESENT` or `PIN_ENTRY_COMPLETE`,
the reply decoder, run on the bytes that follow the two header bytes written by
the reply encoder for `r`, with a scratch reply whose `mode_code` is that of `r`,
returns 0 and recovers the fields of `r`: `mode` and `mode_config`; `reader` and
`status`; `reader`, `status` and `tries`. -/
theorem C20_fixed_reply_round_trip (mode preply : Nat) (r scratch : osdp_trs_reply)
    (buf : Nat → Nat) (max_len len : Int) (hs : scratch.mode_code = r.mode_code) :
    (r.mode_code = REPLY_CURRENT_MODE →
        r.mode_report.mode < 256 → r.mode_report.mode_config < 256 →
        (osdp_trs_reply_decode scratch
            (advance (osdp_trs_reply_build mode preply r buf max_len).2 2) len).1 = 0 ∧
          (osdp_trs_reply_decode scratch
            (advance (osdp_trs_reply_build mode preply r buf max_len).2 2) len).2.mode_report
              = r.mode_report) ∧
      (r.mode_code = REPLY_CARD_PRSENT →
        r.card_status.reader < 256 → r.card_status.status < 256 →
        (osdp_trs_reply_decode scratch
            (advance (osdp_trs_reply_build mode preply r buf max_len).2 2) len).1 = 0 ∧
          (osdp_trs_reply_decode scratch
            (advance (osdp_trs_reply_build mode preply r buf max_len).2 2) len).2.card_status
              = r.card_status) ∧
      (r.mode_code = REPLY_PIN_ENTRY_COMPLETE →
        r.pin_entry_complete.reader < 256 → r.pin_entry_complete.status < 256 →
        r.pin_entry_complete.tries < 256 →
        (osdp_trs_reply_decode scratch
            (advance (osdp_trs_reply_build mode preply r buf max_len).2 2) len).1 = 0 ∧
          (osdp_trs_reply_decode scratch
            (advance (osdp_trs_reply_build mode preply r buf max_len).2 2)
              len).2.pin_entry_complete = r.pin_entry_complete) := by
  obtain ⟨mc, nak, ⟨m, c⟩, info, ⟨cr, cs⟩, data, ⟨pr, ps, pt⟩⟩ := r
  simp only at hs
  refine ⟨?_, ?_, ?_⟩
  · intro h hm hc
    simp only at h hm hc
    have hm2 : m % 256 = m := Nat.mod_eq_of_lt hm
    have hc2 : c % 256 = c := Nat.mod_eq_of_lt hc
    simp only [osdp_trs_reply_build, osdp_trs_reply_decode, hs, h, if_true]
    simp [rd, wr, advance, hm2, hc2]
  · intro h hm hc
    simp only at h hm hc
    have h1 : REPLY_CARD_PRSENT ≠ REPLY_CURRENT_MODE := by decide
    have h2 : REPLY_CARD_PRSENT ≠ REPLY_CARD_INFO_REPORT := by decide
    have hm2 : cr % 256 = cr := Nat.mod_eq_of_lt hm
    have hc2 : cs % 256 = cs := Nat.mod_eq_of_lt hc
    simp only [osdp_trs_reply_build, osdp_trs_reply_decode, hs, h, h1, h2, if_true, if_false]
    simp [rd, wr, advance, hm2, hc2]
  · intro h hr hst ht
    simp only at h hr hst ht
    have h1 : REPLY_PIN_ENTRY_COMPLETE ≠ REPLY_CURRENT_MODE := by decide
    have h2 : REPLY_PIN_ENTRY_COMPLETE ≠ REPLY_CARD_INFO_REPORT := by decide
    have h3 : REPLY_PIN_ENTRY_COMPLETE ≠ REPLY_CARD_PRSENT := by decide
    have h4 : REPLY_PIN_ENTRY_COMPLETE ≠ REPLY_CARD_DATA := by decide
    have hr2 : pr % 256 = pr := Nat.mod_eq_of_lt hr
    have hs2 : ps % 256 = ps := Nat.mod_eq_of_lt hst
    have ht2 : pt % 256 = pt := Nat.mod_eq_of_lt ht
    simp only [osdp_trs_reply_build, osdp_trs_reply_decode, hs, h, h1, h2, h3, h4, if_true,
      if_false]
    simp [rd, wr, advance, hr2, hs2, ht2]

/-- C20 at `CURRENT_MODE` (mode 1, configuration 7), `CARD_PRESENT` (reader 0, status 1)
and `PIN_ENTRY_COMPLETE` (reader 0, status 1, tries 3), each decoded into a clear
scratch reply of the same `mode_code`. -/
theorem C20_fixed_reply_round_trip_witness :
    ((osdp_trs_reply_decode (reply_of REPLY_CURRENT_MODE)
          (advance (osdp_trs_reply_build 0 1 (reply_current_mode 1 7) zeroed 4).2 2) 2).1 = 0 ∧
        (osdp_trs_reply_decode (reply_of REPLY_CURRENT_MODE)
          (advance (osdp_trs_reply_build 0 1 (reply_current_mode 1 7) zeroed 4).2 2)
            2).2.mode_report = (reply_current_mode 1 7).mode_report) ∧
      ((osdp_trs_reply_decode (reply_of REPLY_CARD_PRSENT)
          (advance (osdp_trs_reply_build 1 1 (reply_card_present 0 1) zeroed 4).2 2) 2).1 = 0 ∧
        (osdp_trs_reply_decode (reply_of REPLY_CARD_PRSENT)
          (advance (osdp_trs_reply_build 1 1 (reply_card_present 0 1) zeroed 4).2 2)
            2).2.card_status = (reply_card_present 0 1).card_status) ∧
      ((osdp_trs_reply_decode (reply_of REPLY_PIN_ENTRY_COMPLETE)
          (advance (osdp_trs_reply_build 1 3 (reply_pin_entry_complete 0 1 3) zeroed 5).2 2)
            3).1 = 0 ∧
        (osdp_trs_reply_decode (reply_of REPLY_PIN_ENTRY_COMPLETE)
          (advance (osdp_trs_reply_build 1 3 (reply_pin_entry_complete 0 1 3) zeroed 5).2 2)
            3).2.pin_entry_complete = (reply_pin_entry_complete 0 1 3).pin_entry_complete) :=
  ⟨(C20_fixed_reply_round_trip 0 1 (reply_current_mode 1 7) (reply_of REPLY_CURRENT_MODE)
      zeroed 4 2 rfl).1 rfl (by decide) (by decide),
    (C20_fixed_reply_round_trip 1 1 (reply_card_present 0 1) (reply_of REPLY_CARD_PRSENT)
      zeroed 4 2 rfl).2.1 rfl (by decide) (by decide),
    (C20_fixed_reply_round_trip 1 3 (reply_pin_entry_complete 0 1 3)
      (reply_of REPLY_PIN_ENTRY_COMPLETE) zeroed 5 3 rfl).2.2 rfl (by decide) (by decide)
      (by decide)⟩

/-! ## The PD flags -/

theorem or_and_of_disjoint (a f g : Nat) (hd : f &&& g = 0) : (a ||| f) &&& g = a &&& g := by
  apply Nat.eq_of_testBit_eq
  intro i
  have h := congrArg (fun x => Nat.testBit x i) hd
  simp only [Nat.testBit_and, Nat.zero_testBit] at h
  simp only [Nat.testBit_and, Nat.testBit_or]
  cases ha : a.testBit i <;> cases hf : f.testBit i <;> cases hg : g.testBit i <;> simp_all

theorem testBit_lt_32 (g i : Nat) (hg : g < 4294967296) (hi : g.testBit i = true) : i < 32 := by
  by_contra hge
  have hpow : (2 : Nat) ^ 32 ≤ 2 ^ i := Nat.pow_le_pow_right (by decide) (by omega)
  have hlt : g < 2 ^ i := by
    have h32 : (2 : Nat) ^ 32 = 4294967296 := by norm_num
    omega
  rw [Nat.testBit_lt_two_pow hlt] at hi
  exact Bool.noConfusion hi

theorem and_not_and_of_disjoint (a f g : Nat) (hg : g < 4294967296) (hd : f &&& g = 0) :
    (a &&& (0xFFFFFFFF ^^^ f)) &&& g = a &&& g := by
  apply Nat.eq_of_testBit_eq
  intro i
  have h := congrArg (fun x => Nat.testBit x i) hd
  simp only [Nat.testBit_and, Nat.zero_testBit] at h
  have hM : Nat.testBit 0xFFFFFFFF i = decide (i < 32) := Nat.testBit_two_pow_sub_one 32 i
  simp only [Nat.testBit_and, Nat.testBit_xor, hM]
  cases hgi : g.testBit i
  · simp
  · have hi : i < 32 := testBit_lt_32 g i hg hgi
    rw [hgi] at h
    cases hf : f.testBit i
    · simp [hi]
    · rw [hf] at h
      exact Bool.noConfusion h

theorem and_not_and_self (a f : Nat) (hf : f < 4294967296) :
    (a &&& (0xFFFFFFFF ^^^ f)) &&& f = 0 := by
  apply Nat.eq_of_testBit_eq
  intro i
  have hM : Nat.testBit 0xFFFFFFFF i = decide (i < 32) := Nat.testBit_two_pow_sub_one 32 i
  simp only [Nat.testBit_and, Nat.testBit_xor, hM, Nat.zero_testBit]
  cases hfi : f.testBit i
  · simp
  · have hi : i < 32 := testBit_lt_32 f i hf hfi
    simp [hi]

theorem SET_FLAG_eq (a f : Nat) (ha : a < 4294967296) (hf : f < 4294967296) :
    SET_FLAG a f = a ||| f := by
  unfold SET_FLAG
  apply Nat.mod_eq_of_lt
  have h := Nat.or_lt_two_pow (show a < 2 ^ 32 by norm_num; exact ha)
    (show f < 2 ^ 32 by norm_num; exact hf)
  norm_num at h
  exact h

theorem CLEAR_FLAG_eq (a f : Nat) (ha : a < 4294967296) :
    CLEAR_FLAG a f = a &&& (0xFFFFFFFF ^^^ f) := by
  unfold CLEAR_FLAG
  apply Nat.mod_eq_of_lt
  exact Nat.lt_of_le_of_lt Nat.and_le_left ha

/-- C21: the eleven `PD_FLAG_*` constants are non-zero, each a single bit of a 32-bit
word, and pairwise disjoint; for every 32-bit `flags` word and every PD flag `f`,
`ISSET_FLAG` holds for `f` after `SET_FLAG(f)` and fails after `CLEAR_FLAG(f)`, and
for every other PD flag `g` the value of `ISSET_FLAG` for `g` is the same after
`SET_FLAG(f)` or `CLEAR_FLAG(f)` as before. -/
theorem C21_pd_flags_independent :
    (pd_flags.length = 11 ∧ (∀ f ∈ pd_flags, f ≠ 0) ∧
        pd_flags = pd_flag_bits.map (fun k => 2 ^ k) ∧ (∀ k ∈ pd_flag_bits, k < 32) ∧
        pd_flags.Pairwise (fun f g => f &&& g = 0)) ∧
      ∀ flags f : Nat, flags < 4294967296 → f ∈ pd_flags →
        ISSET_FLAG (SET_FLAG flags f) f = true ∧
          ISSET_FLAG (CLEAR_FLAG flags f) f = false ∧
          ∀ g ∈ pd_flags, g ≠ f →
            ISSET_FLAG (SET_FLAG flags f) g = ISSET_FLAG flags g ∧
              ISSET_FLAG (CLEAR_FLAG flags f) g = ISSET_FLAG flags g := by
  have hlt : ∀ f ∈ pd_flags, f < 4294967296 := by decide
  have hne : ∀ f ∈ pd_flags, f ≠ 0 := by decide
  have hdisj : ∀ f ∈ pd_flags, ∀ g ∈ pd_flags, g ≠ f → f &&& g = 0 := by decide
  refine ⟨⟨rfl, hne, by decide, by decide, by decide⟩, ?_⟩
  intro flags f hflags hf
  have hf32 := hlt f hf
  rw [SET_FLAG_eq flags f hflags hf32, CLEAR_FLAG_eq flags f hflags]
  refine ⟨?_, ?_, ?_⟩
  · have h : (flags ||| f) &&& f = f := by
      apply Nat.eq_of_testBit_eq
      intro i
      simp only [Nat.testBit_and, Nat.testBit_or]
      cases flags.testBit i <;> cases f.testBit i <;> rfl
    simp [ISSET_FLAG, h]
  · have h := and_not_and_self flags f hf32
    have hf0 := hne f hf
    simp only [ISSET_FLAG, h]
    simpa using fun h0 : 0 = f => hf0 h0.symm
  · intro g hg hgf
    have hd := hdisj f hf g hg hgf
    have h1 := or_and_of_disjoint flags f g hd
    have h2 := and_not_and_of_disjoint flags f g (hlt g hg) hd
    simp only [ISSET_FLAG, h1, h2, and_self]

/-- C21 at `flags = 0x00000102` with `f = PD_FLAG_SC_ACTIVE` and `g = PD_FLAG_TAMPER`. -/
theorem C21_pd_flags_independent_witness :
    (0x00000102 : Nat) < 4294967296 ∧ PD_FLAG_SC_ACTIVE ∈ pd_flags ∧
      ISSET_FLAG (SET_FLAG 0x00000102 PD_FLAG_SC_ACTIVE) PD_FLAG_SC_ACTIVE = true ∧
      ISSET_FLAG (CLEAR_FLAG 0x00000102 PD_FLAG_SC_ACTIVE) PD_FLAG_SC_ACTIVE = false ∧
      ISSET_FLAG (CLEAR_FLAG 0x00000102 PD_FLAG_SC_ACTIVE) PD_FLAG_TAMPER =
        ISSET_FLAG 0x00000102 PD_FLAG_TAMPER :=
  ⟨by decide, by decide,
    (C21_pd_flags_independent.2 0x00000102 PD_FLAG_SC_ACTIVE (by decide) (by decide)).1,
    (C21_pd_flags_independent.2 0x00000102 PD_FLAG_SC_ACTIVE (by decide) (by decide)).2.1,
    ((C21_pd_flags_independent.2 0x00000102 PD_FLAG_SC_ACTIVE (by decide) (by decide)).2.2
      PD_FLAG_TAMPER (by decide) (by decide)).2⟩

/-! ## The dict helpers of the Python binding -/

theorem pyosdp_dict_add_int_status {D V : Type} (create : Int → Option V)
    (set_item : D → String → V → Int × D) (dict : D) (key : String) (val : Int) :
    (pyosdp_dict_add_int create set_item dict key val).1 = 0 ↔
      ∃ o, create val = some o ∧ (set_item dict key o).1 = 0 := by
  unfold pyosdp_dict_add_int
  cases h : create val <;> simp

theorem pyosdp_dict_add_str_status {D V : Type} (create : String → Option V)
    (set_item : D → String → V → Int × D) (dict : D) (key : String) (val : String) :
    (pyosdp_dict_add_str create set_item dict key val).1 = 0 ↔
      ∃ o, create val = some o ∧ (set_item dict key o).1 = 0 := by
  unfold pyosdp_dict_add_str
  cases h : create val <;> simp

theorem pyosdp_dict_add_bytes_status {D V : Type} (create : (Nat → Nat) → Int → Option V)
    (set_item : D → String → V → Int × D) (dict : D) (key : String) (data : Nat → Nat)
    (len : Int) :
    (pyosdp_dict_add_bytes create set_item dict key data len).1 = 0 ↔
      ∃ o, create data len = some o := by
  unfold pyosdp_dict_add_bytes
  cases h : create data len <;> simp

/-- C22, when the value is created and `PyDict_SetItemString` fails with -1 on an empty
dict: `pyosdp_dict_add_bytes` returns 0 although nothing was inserted, while
`pyosdp_dict_add_int` and `pyosdp_dict_add_str` return -1; when the insertion
succeeds all three return 0. -/
theorem C22_dict_add_bytes_hides_failure :
    (pyosdp_dict_add_bytes (fun _ _ => some 1) set_item_fails [] "data" zeroed 0).1 = 0 ∧
      (pyosdp_dict_add_bytes (fun _ _ => some 1) set_item_fails [] "data" zeroed 0).2 = [] ∧
      (pyosdp_dict_add_int create_ok set_item_fails [] "count" 5).1 = -1 ∧
      (pyosdp_dict_add_str create_ok set_item_fails [] "name" "pd").1 = -1 ∧
      (pyosdp_dict_add_bytes (fun _ _ => some 1) set_item_ok [] "data" zeroed 0).1 = 0 ∧
      (pyosdp_dict_add_int create_ok set_item_ok [] "count" 5).1 = 0 ∧
      (pyosdp_dict_add_str create_ok set_item_ok [] "name" "pd").1 = 0 := by
  decide

end OSDP
